import Mathlib

/-!
Verification of the mia1321 V4L2 sensor driver
(`sysdrv/source/kernel/drivers/media/i2c/mia1321.c`).

The driver is shallowly embedded: each C function that the claims touch is
translated into a pure Lean function.  I2C traffic is modelled as a list of
events (`I2CEvent`); the outcome of an individual I2C transfer is abstracted
into an oracle parameter (a function returning the `int` result of each write)
where a claim depends on failure behaviour, and into an `Option`/return-code
parameter for reads.  Machine integers are `Nat`/`Int` with explicit wrapping
at `2 ^ 32` where the C arithmetic can overflow (the kernel is built with
`-fno-strict-overflow`, so signed `int` arithmetic wraps).
-/

/-! ## Register and constant definitions (from the `#define` block of mia1321.c) -/

def MIA1321_LANES : Nat := 2

def MIA1321_XVCLK_FREQ : Nat := 26000000

def CHIP_ID : Nat := 0x0400

def MIA1321_REG_CHIP_ID : Nat := 0x0011

def MIA1321_REG_CTRL_MODE : Nat := 0x0126

def MIA1321_MODE_SW_STANDBY : Nat := 1

def MIA1321_MODE_STREAMING : Nat := 0x0

def MIA1321_REG_EXPOSURE_H : Nat := 0x00cf

def MIA1321_REG_EXPOSURE_M : Nat := 0x00ce

def MIA1321_REG_EXPOSURE_L : Nat := 0x00cd

def MIA1321_FETCH_EXP_H (v : Nat) : Nat := (v >>> 16) &&& 0xFF

def MIA1321_FETCH_EXP_M (v : Nat) : Nat := (v >>> 8) &&& 0xFF

def MIA1321_FETCH_EXP_L (v : Nat) : Nat := v &&& 0xFF

def MIA1321_REG_ANA_GAIN_H : Nat := 0x001b

def MIA1321_REG_ANA_GAIN_M : Nat := 0x0019

def MIA1321_REG_ANA_GAIN_L : Nat := 0x0018

def MIA1321_ONCE_GAIN_STEP : Nat := 0x5dc

def MIA1321_GAIN_MIN : Nat := MIA1321_ONCE_GAIN_STEP

def MIA1321_AGAIN_MAX : Nat := MIA1321_ONCE_GAIN_STEP * 32

def MIA1321_GAIN_MAX : Nat := MIA1321_AGAIN_MAX * 1

def MIA1321_VTS_MAX : Nat := 0xffff

def MIA1321_MIRROR_REG : Nat := 0x009a

def MIA1321_FLIP_REG : Nat := 0x0099

def MIRROR_BIT_MASK : Nat := 1 <<< 0

def FLIP_BIT_MASK : Nat := 1 <<< 1

def REG_DELAY : Nat := 0xFFFE

def REG_NULL : Nat := 0xFFFF

def MIA1321_REG_VALUE_08BIT : Nat := 1

def MIA1321_REG_VALUE_16BIT : Nat := 2

/-- Modelled from the spec: kernel errno values (`-ENODEV`, `-EINVAL`) used by
the driver come from kernel headers that are not under `src/`; these are the
standard Linux values. -/
def ENODEV : Int := 19

def EINVAL : Int := 22

/-- Modelled from the spec: `NO_HDR` from the rockchip `rkmodule_hdr_mode`
enum (kernel header `rk-camera-module.h`, not under `src/`); `NO_HDR = 0`. -/
def NO_HDR : Nat := 0

/-- Modelled from the spec: `HDR_X2 = 5` from the same rockchip enum. -/
def HDR_X2 : Nat := 5

/-- Modelled from the spec: `HDR_X3 = 6` from the same rockchip enum. -/
def HDR_X3 : Nat := 6

/-- Modelled from the spec: `MEDIA_BUS_FMT_SGRBG10_1X10` from the kernel
`media-bus-format.h` header (not under `src/`). -/
def MEDIA_BUS_FMT_SGRBG10_1X10 : Nat := 0x300a

/-- Modelled from the spec: `MEDIA_BUS_FMT_SGRBG12_1X12` from the kernel
`media-bus-format.h` header (not under `src/`). -/
def MEDIA_BUS_FMT_SGRBG12_1X12 : Nat := 0x3011

/-- Modelled from the spec: legacy `V4L2_MBUS_CSI2_*` flag bits from the
kernel `v4l2-mediabus.h` header (not under `src/`). -/
def V4L2_MBUS_CSI2_CHANNEL_0 : Nat := 1 <<< 4

/-- Modelled from the spec: CSI-2 virtual channel 1 flag bit. -/
def V4L2_MBUS_CSI2_CHANNEL_1 : Nat := 1 <<< 5

/-- Modelled from the spec: CSI-2 virtual channel 2 flag bit. -/
def V4L2_MBUS_CSI2_CHANNEL_2 : Nat := 1 <<< 6

/-- Modelled from the spec: CSI-2 continuous-clock flag bit. -/
def V4L2_MBUS_CSI2_CONTINUOUS_CLOCK : Nat := 1 <<< 8

/-! ## Data model -/

/-- `struct regval`: one register-table entry (`u16 addr`, `u8 val`). -/
structure regval where
  addr : Nat
  val : Nat
deriving DecidableEq

/-- `struct v4l2_fract`. -/
structure v4l2_fract where
  numerator : Nat
  denominator : Nat
deriving DecidableEq

/-- `struct mia1321_mode`; the `vc` array is kept as its only initialised
entry `vc[PAD0]`. -/
structure mia1321_mode where
  bus_fmt : Nat
  width : Nat
  height : Nat
  max_fps : v4l2_fract
  hts_def : Nat
  vts_def : Nat
  exp_def : Nat
  reg_list : List regval
  hdr_mode : Nat
  vc0 : Nat
deriving DecidableEq

/-- One observable I2C-level action of the driver: a register write of the
given byte width, a register read, or an `mdelay`.  Field order of `write`
follows `mia1321_write_reg(client, reg, len, val)`. -/
inductive I2CEvent where
  | write (reg len val : Nat)
  | read (reg len : Nat)
  | delay (ms : Nat)
deriving DecidableEq

/-! ## Register tables (`mia1321_global_regs` and the three mode tables) -/

def mia1321_global_regs : List regval := [⟨REG_NULL, 0x00⟩]

set_option maxHeartbeats 2000000 in
def mia1321_linear_60_1280x1080_regs : List regval := [
  ⟨0x011d, 0x00⟩, ⟨0x011f, 0x00⟩, ⟨0x012e, 0x02⟩, ⟨0x012b, 0x01⟩,
  ⟨0x00bd, 0x00⟩, ⟨0x00bc, 0x01⟩, ⟨0x00bf, 0x00⟩, ⟨0x00c0, 0x00⟩,
  ⟨0x00cd, 0x01⟩, ⟨0x00ce, 0x01⟩, ⟨0x00cf, 0x00⟩, ⟨0x00e1, 0x00⟩,
  ⟨0x011c, 0x00⟩, ⟨0x0120, 0x00⟩, ⟨0x0125, 0x00⟩, ⟨0x003c, 0x01⟩,
  ⟨0x003d, 0x03⟩, ⟨0x1201, 0xf0⟩, ⟨0x1051, 0x1e⟩, ⟨0x1202, 0x70⟩,
  ⟨0x1203, 0x10⟩, ⟨0x1070, 0x02⟩, ⟨0x1205, 0x00⟩, ⟨0x1208, 0x01⟩,
  ⟨0x1000, 0x16⟩, ⟨0x1024, 0x00⟩, ⟨0x1025, 0x05⟩, ⟨0x1026, 0x38⟩,
  ⟨0x1027, 0x04⟩, ⟨0x1020, 0x2a⟩, ⟨0x1042, 0x03⟩, ⟨0x0010, 0x05⟩,
  ⟨0x0012, 0x01⟩, ⟨0x0043, 0x03⟩, ⟨0x003f, 0x3f⟩, ⟨0x0041, 0xff⟩,
  ⟨0x009a, 0x01⟩, ⟨0x0099, 0x01⟩,
  ⟨0x00ca, 0x01⟩, ⟨0x00e1, 0x00⟩, ⟨0x00e2, 0x00⟩, ⟨0x0030, 0xc0⟩,
  ⟨0x012c, 0x01⟩,
  ⟨0x004a, 0x01⟩, ⟨0x004b, 0x90⟩, ⟨0x004c, 0x03⟩, ⟨0x004e, 0x01⟩,
  ⟨0x0051, 0x03⟩, ⟨0x0053, 0x03⟩,
  ⟨0x00d0, 0x9a⟩, ⟨0x00d1, 0x02⟩, ⟨0x00df, 0x42⟩, ⟨0x01c9, 0x9a⟩,
  ⟨0x01ca, 0x02⟩, ⟨0x0043, 0x01⟩, ⟨0x02fd, 0x58⟩, ⟨0x02fe, 0x42⟩,
  ⟨0x031f, 0xb0⟩, ⟨0x0320, 0x04⟩, ⟨0x0305, 0x08⟩, ⟨0x0306, 0x87⟩,
  ⟨0x0307, 0xfc⟩, ⟨0x0308, 0x08⟩, ⟨0x0317, 0x80⟩, ⟨0x0318, 0x0c⟩,
  ⟨0x030f, 0xfa⟩, ⟨0x0310, 0x0f⟩, ⟨0x02ff, 0xfa⟩, ⟨0x0300, 0x8f⟩,
  ⟨0x0309, 0xfa⟩, ⟨0x030a, 0x8f⟩, ⟨0x00ce, 0x03⟩, ⟨0x1000, 0x06⟩,
  ⟨0x1018, 0x01⟩, ⟨0x1018, 0x00⟩, ⟨0x012a, 0x01⟩, ⟨0x012a, 0x00⟩,
  ⟨0x00ce, 0x00⟩, ⟨0x00cd, 0x01⟩, ⟨0x012a, 0x01⟩, ⟨0x012a, 0x00⟩,
  ⟨REG_NULL, 0x00⟩]

set_option maxHeartbeats 2000000 in
def mia1321_linear_120_1280x1080_regs : List regval := [
  ⟨0x011d, 0x00⟩, ⟨0x011f, 0x00⟩, ⟨0x012e, 0x02⟩, ⟨0x012b, 0x01⟩,
  ⟨0x00bd, 0x00⟩, ⟨0x00bc, 0x01⟩, ⟨0x00bf, 0x00⟩, ⟨0x00c0, 0x00⟩,
  ⟨0x00cd, 0x01⟩, ⟨0x00ce, 0x01⟩, ⟨0x00cf, 0x00⟩, ⟨0x00e1, 0x00⟩,
  ⟨0x011c, 0x00⟩, ⟨0x0120, 0x00⟩, ⟨0x0125, 0x00⟩, ⟨0x003c, 0x01⟩,
  ⟨0x003d, 0x03⟩, ⟨0x1201, 0xf0⟩, ⟨0x1051, 0x1e⟩, ⟨0x1202, 0x70⟩,
  ⟨0x1203, 0x10⟩, ⟨0x1070, 0x02⟩, ⟨0x1205, 0x00⟩, ⟨0x1208, 0x01⟩,
  ⟨0x1000, 0x16⟩, ⟨0x1024, 0x00⟩, ⟨0x1025, 0x05⟩, ⟨0x1026, 0x38⟩,
  ⟨0x1027, 0x04⟩, ⟨0x1020, 0x2a⟩, ⟨0x1042, 0x03⟩, ⟨0x0010, 0x05⟩,
  ⟨0x0012, 0x01⟩, ⟨0x0043, 0x03⟩, ⟨0x003f, 0x3f⟩, ⟨0x0041, 0xff⟩,
  ⟨0x00ca, 0x01⟩, ⟨0x00e1, 0x00⟩, ⟨0x00e2, 0x00⟩, ⟨0x0030, 0xc0⟩,
  ⟨0x012c, 0x01⟩,
  ⟨0x004a, 0x01⟩, ⟨0x004b, 0xd8⟩, ⟨0x004c, 0x02⟩, ⟨0x004e, 0x01⟩,
  ⟨0x0051, 0x02⟩, ⟨0x0053, 0x02⟩,
  ⟨0x00d0, 0x9a⟩, ⟨0x00d1, 0x02⟩, ⟨0x00df, 0x42⟩, ⟨0x01c9, 0x9a⟩,
  ⟨0x01ca, 0x02⟩, ⟨0x0043, 0x01⟩, ⟨0x02fd, 0x58⟩, ⟨0x02fe, 0x42⟩,
  ⟨0x031f, 0xb0⟩, ⟨0x0320, 0x04⟩, ⟨0x0305, 0x08⟩, ⟨0x0306, 0x87⟩,
  ⟨0x0307, 0xfc⟩, ⟨0x0308, 0x08⟩, ⟨0x0317, 0x80⟩, ⟨0x0318, 0x0c⟩,
  ⟨0x030f, 0xfa⟩, ⟨0x0310, 0x0f⟩, ⟨0x02ff, 0xfa⟩, ⟨0x0300, 0x8f⟩,
  ⟨0x0309, 0xfa⟩, ⟨0x030a, 0x8f⟩, ⟨0x00ce, 0x03⟩, ⟨0x1000, 0x06⟩,
  ⟨0x1018, 0x01⟩, ⟨0x1018, 0x00⟩, ⟨0x012a, 0x01⟩, ⟨0x012a, 0x00⟩,
  ⟨0x00ce, 0x00⟩, ⟨0x00cd, 0x01⟩, ⟨0x012a, 0x01⟩, ⟨0x012a, 0x00⟩,
  ⟨REG_NULL, 0x00⟩]

set_option maxHeartbeats 2000000 in
def mia1321_linear_10_1280x720_regs : List regval := [
  ⟨0x011d, 0x01⟩, ⟨0x011f, 0x00⟩, ⟨0x012e, 0x02⟩, ⟨0x012b, 0x01⟩,
  ⟨0x00bd, 0x00⟩, ⟨0x00bc, 0x01⟩, ⟨0x00bf, 0x05⟩, ⟨0x00c0, 0x00⟩,
  ⟨0x00cd, 0x01⟩, ⟨0x00ce, 0x01⟩, ⟨0x00cf, 0x00⟩, ⟨0x00e1, 0x00⟩,
  ⟨0x011c, 0x00⟩, ⟨0x0120, 0x00⟩, ⟨0x0125, 0x00⟩, ⟨0x003c, 0x01⟩,
  ⟨0x003d, 0x03⟩, ⟨0x1201, 0xf0⟩, ⟨0x1051, 0x1e⟩, ⟨0x1202, 0x70⟩,
  ⟨0x1203, 0x10⟩, ⟨0x1070, 0x02⟩, ⟨0x1205, 0x00⟩, ⟨0x1208, 0x01⟩,
  ⟨0x1000, 0x16⟩, ⟨0x1024, 0x00⟩, ⟨0x1025, 0x05⟩, ⟨0x1026, 0x38⟩,
  ⟨0x1027, 0x04⟩, ⟨0x1020, 0x2a⟩, ⟨0x1042, 0x03⟩, ⟨0x0010, 0x05⟩,
  ⟨0x0012, 0x01⟩, ⟨0x0043, 0x03⟩, ⟨0x003f, 0x3f⟩, ⟨0x0041, 0xff⟩,
  ⟨0x00ca, 0x01⟩, ⟨0x00e1, 0x00⟩, ⟨0x00e2, 0x00⟩, ⟨0x0030, 0xc0⟩,
  ⟨0x012c, 0x01⟩, ⟨0x004a, 0x01⟩, ⟨0x004b, 0x60⟩,
  ⟨0x00d0, 0x9a⟩, ⟨0x00d1, 0x02⟩, ⟨0x00df, 0x42⟩, ⟨0x01c9, 0x9a⟩,
  ⟨0x01ca, 0x02⟩, ⟨0x0043, 0x01⟩, ⟨0x02fd, 0x58⟩, ⟨0x02fe, 0x42⟩,
  ⟨0x031f, 0xb0⟩, ⟨0x0320, 0x04⟩, ⟨0x0305, 0x08⟩, ⟨0x0306, 0x87⟩,
  ⟨0x0307, 0xfc⟩, ⟨0x0308, 0x08⟩, ⟨0x0317, 0x80⟩, ⟨0x0318, 0x0c⟩,
  ⟨0x030f, 0xfa⟩, ⟨0x0310, 0x0f⟩, ⟨0x02ff, 0xfa⟩, ⟨0x0300, 0x8f⟩,
  ⟨0x0309, 0xfa⟩, ⟨0x030a, 0x8f⟩, ⟨0x00ce, 0x03⟩, ⟨0x1000, 0x06⟩,
  ⟨0x1018, 0x01⟩, ⟨0x1018, 0x00⟩, ⟨0x012a, 0x01⟩, ⟨0x012a, 0x00⟩,
  ⟨0x00ce, 0x00⟩, ⟨0x00cd, 0x01⟩, ⟨0x012a, 0x01⟩, ⟨0x012a, 0x00⟩,
  ⟨REG_NULL, 0x00⟩]

/-- Entry 0 of `supported_modes` (60 fps, 1280x1080, 10-bit). -/
def mia1321_mode_1280x1080_60 : mia1321_mode where
  bus_fmt := MEDIA_BUS_FMT_SGRBG10_1X10
  width := 1280
  height := 1080
  max_fps := ⟨10000, 600000⟩
  hts_def := 0x0a68
  vts_def := 0x04b0
  exp_def := 0x01f4
  reg_list := mia1321_linear_60_1280x1080_regs
  hdr_mode := NO_HDR
  vc0 := V4L2_MBUS_CSI2_CHANNEL_0

/-- Entry 1 of `supported_modes` (120 fps, 1280x1080, 10-bit). -/
def mia1321_mode_1280x1080_120 : mia1321_mode where
  bus_fmt := MEDIA_BUS_FMT_SGRBG10_1X10
  width := 1280
  height := 1080
  max_fps := ⟨10000, 1170000⟩
  hts_def := 0x0a68
  vts_def := 0x04b0
  exp_def := 0x01f4
  reg_list := mia1321_linear_120_1280x1080_regs
  hdr_mode := NO_HDR
  vc0 := V4L2_MBUS_CSI2_CHANNEL_0

/-- Entry 2 of `supported_modes` (30/10 fps table, 12-bit; its `width` and
`height` fields are 1280 and 1080 in the source even though the table is
named 1280x720). -/
def mia1321_mode_1280x1080_10 : mia1321_mode where
  bus_fmt := MEDIA_BUS_FMT_SGRBG12_1X12
  width := 1280
  height := 1080
  max_fps := ⟨10000, 300000⟩
  hts_def := 0x0a68
  vts_def := 0x04b0
  exp_def := 0x0052
  reg_list := mia1321_linear_10_1280x720_regs
  hdr_mode := NO_HDR
  vc0 := V4L2_MBUS_CSI2_CHANNEL_0

def supported_modes : List mia1321_mode :=
  [mia1321_mode_1280x1080_60, mia1321_mode_1280x1080_120, mia1321_mode_1280x1080_10]

/-! ## `mia1321_write_array`

`mia1321_write_array` walks a register table; `wrRet reg val` is the oracle
giving the `int` result of the underlying `mia1321_write_reg` call (0 on
success).  The returned pair is (return code, I2C events issued).  The C loop
re-checks `ret == 0` at the top, so a failed write ends the walk with its
error code and the failed attempt as last event. -/

def mia1321_write_array (wrRet : Nat → Nat → Int) : List regval → Int × List I2CEvent
  | [] => (0, [])
  | r :: rest =>
    if r.addr = REG_NULL then (0, [])
    else if r.addr = REG_DELAY then
      let p := mia1321_write_array wrRet rest
      (p.1, I2CEvent.delay r.val :: p.2)
    else
      let ret := wrRet r.addr r.val
      if ret = 0 then
        let p := mia1321_write_array wrRet rest
        (p.1, I2CEvent.write r.addr MIA1321_REG_VALUE_08BIT r.val :: p.2)
      else (ret, [I2CEvent.write r.addr MIA1321_REG_VALUE_08BIT r.val])

/-- The action the C loop body performs for one non-`REG_NULL` table entry
(used to state what a completed walk emits). -/
def regvalEvent (r : regval) : I2CEvent :=
  if r.addr = REG_DELAY then I2CEvent.delay r.val
  else I2CEvent.write r.addr MIA1321_REG_VALUE_08BIT r.val

/-! ## Analog gain (`mia1321_again` table and `mia1321_set_gain_reg`) -/

/-- `struct s_again`. -/
structure s_again where
  again : Nat
  reg_0018 : Nat
  reg_0019 : Nat
  reg_001b : Nat
deriving DecidableEq

def mia1321_again : List s_again := [
  ⟨800, 0x0, 0x0, 0x1f⟩, ⟨1000, 0x4, 0x0, 0x1f⟩, ⟨1250, 0x9, 0x0, 0x1f⟩,
  ⟨1500, 0xE, 0x0, 0x1f⟩, ⟨1750, 0x13, 0x0, 0x2b⟩, ⟨2200, 0x1C, 0x0, 0x2b⟩,
  ⟨2450, 0x21, 0x0, 0x2b⟩, ⟨2700, 0x26, 0x0, 0x2b⟩, ⟨2950, 0x2B, 0x0, 0x2b⟩,
  ⟨3400, 0x34, 0x0, 0x30⟩, ⟨3650, 0x39, 0x0, 0x30⟩, ⟨3900, 0x3E, 0x0, 0x30⟩,
  ⟨4150, 0x43, 0x0, 0x30⟩, ⟨4600, 0x4C, 0x0, 0x30⟩, ⟨4850, 0x51, 0x0, 0x30⟩,
  ⟨5100, 0x56, 0x0, 0x30⟩, ⟨5350, 0x5B, 0x0, 0x30⟩, ⟨5800, 0x64, 0x0, 0x30⟩,
  ⟨6050, 0x69, 0x0, 0x30⟩, ⟨6300, 0x6E, 0x0, 0x30⟩, ⟨6550, 0x73, 0x0, 0x32⟩,
  ⟨7000, 0x7c, 0x0, 0x32⟩, ⟨7800, 0xbe, 0x0, 0x32⟩, ⟨8800, 0xc8, 0x0, 0x32⟩,
  ⟨9800, 0xd2, 0x0, 0x32⟩, ⟨10800, 0xdc, 0x0, 0x32⟩, ⟨12600, 0xee, 0x0, 0x32⟩,
  ⟨13600, 0xf8, 0x0, 0x32⟩, ⟨14600, 0x39, 0x1, 0x32⟩, ⟨15600, 0x3E, 0x1, 0x32⟩,
  ⟨17400, 0x47, 0x1, 0x32⟩, ⟨18400, 0x4C, 0x1, 0x32⟩, ⟨19400, 0x51, 0x1, 0x32⟩,
  ⟨20400, 0x56, 0x1, 0x32⟩, ⟨22200, 0x5F, 0x1, 0x32⟩, ⟨23200, 0x64, 0x1, 0x32⟩,
  ⟨24200, 0x69, 0x1, 0x32⟩, ⟨25200, 0x6E, 0x1, 0x32⟩, ⟨25600, 0x70, 0x1, 0x32⟩]

/-- The `while` loop of `mia1321_set_gain_reg`, returning the selected
`(gain_0x0018, gain_0x0019, gain_0x001b)` triple.  The fall-through case
(index reaches the end of the table) keeps the local variables' initial
values `0x00, 0x00, 0x1f`. -/
def mia1321_gain_lookup (gain : Nat) : List s_again → Nat × Nat × Nat
  | [] => (0x00, 0x00, 0x1f)
  | a :: rest =>
    if gain ≤ a.again then (a.reg_0018, a.reg_0019, a.reg_001b)
    else if MIA1321_GAIN_MAX - 1 ≤ gain then (0x70, 0x1, 0x32)
    else mia1321_gain_lookup gain rest

/-- `mia1321_set_gain_reg`, as the list of register writes it issues (the
digital-gain block is compiled out because `MIA1321_REG_DIG_GAIN_EN` is 0;
I2C write results are abstracted away since the claims concern the writes). -/
def mia1321_set_gain_reg (gain : Nat) : List I2CEvent :=
  let gain1 := if gain ≤ MIA1321_GAIN_MIN then MIA1321_GAIN_MIN else gain
  let gain2 := if MIA1321_GAIN_MAX - 1 < gain1 then MIA1321_GAIN_MAX - 1 else gain1
  let t := mia1321_gain_lookup gain2 mia1321_again
  [I2CEvent.write MIA1321_REG_ANA_GAIN_H MIA1321_REG_VALUE_08BIT t.2.2,
   I2CEvent.write MIA1321_REG_ANA_GAIN_M MIA1321_REG_VALUE_08BIT t.2.1,
   I2CEvent.write MIA1321_REG_ANA_GAIN_L MIA1321_REG_VALUE_08BIT t.1]

/-- The clamp described by claim C2 (spec-side definition, for comparison
with the clamp embedded in `mia1321_set_gain_reg`). -/
def claim_clamped_gain (gain : Nat) : Nat :=
  max MIA1321_GAIN_MIN (min gain (MIA1321_GAIN_MAX - 1))

/-! ## Format negotiation (`mia1321_find_best_fit`, `mia1321_set_fmt`) -/

/-- `struct v4l2_mbus_framefmt`, restricted to the fields the driver touches
(`width`, `height`, `code`; all `u32`). -/
structure framefmt where
  width : Nat
  height : Nat
  code : Nat
deriving DecidableEq

/-- Wrap an integer into signed 32-bit range (two's complement), as the
kernel's `-fno-strict-overflow` build does for `int` arithmetic. -/
def wrapS32 (i : Int) : Int := (i + 2 ^ 31) % 2 ^ 32 - 2 ^ 31

/-- Reinterpret a `u32` value as a signed `int` (the implicit conversion in
`abs()` applied to an unsigned expression). -/
def toS32 (n : Nat) : Int := wrapS32 (n % 2 ^ 32)

/-- `u32` subtraction `a - b` (modular). -/
def usub32 (a b : Nat) : Nat := (a % 2 ^ 32 + 2 ^ 32 - b % 2 ^ 32) % 2 ^ 32

/-- The kernel `abs()` macro specialised at `int`: `__x < 0 ? -__x : __x`,
where the negation wraps (so `abs(INT_MIN) = INT_MIN`). -/
def kabs (x : Int) : Int := if x < 0 then wrapS32 (-x) else x

/-- `mia1321_get_reso_dist`: `abs(mode->width - framefmt->width) +
abs(mode->height - framefmt->height)` with `u32` subtraction, conversion to
`int`, and wrapping `int` addition. -/
def mia1321_get_reso_dist (m : mia1321_mode) (f : framefmt) : Int :=
  wrapS32 (kabs (toS32 (usub32 m.width f.width)) + kabs (toS32 (usub32 m.height f.height)))

/-- The loop of `mia1321_find_best_fit` (`i`, `cur_best_fit_dist`,
`cur_best_fit` are the loop variables); returns `cur_best_fit`. -/
def mia1321_find_best_fit_go (f : framefmt) :
    List mia1321_mode → Nat → Int → Nat → Nat
  | [], _, _, best => best
  | m :: rest, i, bestDist, best =>
    let dist := mia1321_get_reso_dist m f
    if bestDist = -1 ∨ dist < bestDist then
      mia1321_find_best_fit_go f rest (i + 1) dist i
    else
      mia1321_find_best_fit_go f rest (i + 1) bestDist best

/-- `mia1321_find_best_fit`: returns `&supported_modes[cur_best_fit]`. -/
def mia1321_find_best_fit (f : framefmt) : mia1321_mode :=
  supported_modes.getD (mia1321_find_best_fit_go f supported_modes 0 (-1) 0)
    mia1321_mode_1280x1080_60

/-- A `__v4l2_ctrl_modify_range(ctrl, min, max, step, def)` call's arguments. -/
structure CtrlRange where
  min : Nat
  max : Nat
  step : Nat
  dflt : Nat
deriving DecidableEq

/-- `mia1321_set_fmt` (with `CONFIG_VIDEO_V4L2_SUBDEV_API` set, as in the
rockchip kernels this driver builds in, so the TRY branch succeeds): returns
the format written back to the request, and for an ACTIVE request also the
new `cur_mode` with the `hblank` and `vblank` range updates; the function
always returns 0. -/
def mia1321_set_fmt (fmtIn : framefmt) (isTry : Bool) :
    framefmt × Option (mia1321_mode × CtrlRange × CtrlRange) :=
  let mode := mia1321_find_best_fit fmtIn
  let out : framefmt := ⟨mode.width, mode.height, mode.bus_fmt⟩
  if isTry then (out, none)
  else
    let h_blank := mode.hts_def - mode.width
    let vblank_def := mode.vts_def - mode.height
    (out, some (mode,
      ⟨h_blank, h_blank, 1, h_blank⟩,
      ⟨vblank_def, MIA1321_VTS_MAX - mode.height, 1, vblank_def⟩))

/-- The Manhattan distance of claim C6 (spec-side definition, for comparison
with `mia1321_get_reso_dist`). -/
def manhattan (m : mia1321_mode) (f : framefmt) : Nat :=
  ((m.width : Int) - (f.width : Int)).natAbs + ((m.height : Int) - (f.height : Int)).natAbs

/-! ## Frame-size enumeration -/

/-- `mia1321_enum_frame_sizes`: on success returns
`(min_width, max_width, max_height, min_height)`. -/
def mia1321_enum_frame_sizes (index code : Nat) : Except Int (Nat × Nat × Nat × Nat) :=
  if supported_modes.length ≤ index then Except.error (-EINVAL)
  else if code ≠ (supported_modes.getD 0 mia1321_mode_1280x1080_60).bus_fmt then
    Except.error (-EINVAL)
  else
    let m := supported_modes.getD index mia1321_mode_1280x1080_60
    Except.ok (m.width, m.width, m.height, m.height)

/-! ## Controls (`mia1321_enable_test_pattern`, `mia1321_set_ctrl`) -/

/-- `mia1321_enable_test_pattern`: the entire register access in its body is
commented out in the source; it returns `ret = 0` and performs no I2C
transaction, for every pattern value. -/
def mia1321_enable_test_pattern (_pattern : Nat) : Int × List I2CEvent := (0, [])

/-- The `V4L2_CID_*` cases of the second `switch` in `mia1321_set_ctrl` that
the claims are about. -/
inductive CtrlId where
  | exposure
  | analogue_gain
  | vblank
  | test_pattern
deriving DecidableEq

/-- The sensor-facing part of `mia1321_set_ctrl` (the second `switch`,
executed when the device is in use): given the current mode, the current
`cur_vts` and the control value, it returns the I2C events issued and the new
`cur_vts`.  The `VBLANK` branch's register writes are commented out in the
source; it only stores `cur_vts = cur_mode->vts_def`. -/
def mia1321_set_ctrl (mode : mia1321_mode) (cur_vts : Nat) (id : CtrlId) (v : Nat) :
    List I2CEvent × Nat :=
  match id with
  | CtrlId.exposure =>
    if mode.hdr_mode = NO_HDR then
      ([I2CEvent.write MIA1321_REG_EXPOSURE_H MIA1321_REG_VALUE_08BIT (MIA1321_FETCH_EXP_H v),
        I2CEvent.write MIA1321_REG_EXPOSURE_M MIA1321_REG_VALUE_08BIT (MIA1321_FETCH_EXP_M v),
        I2CEvent.write MIA1321_REG_EXPOSURE_L MIA1321_REG_VALUE_08BIT (MIA1321_FETCH_EXP_L v)],
       cur_vts)
    else ([], cur_vts)
  | CtrlId.analogue_gain =>
    if mode.hdr_mode = NO_HDR then (mia1321_set_gain_reg v, cur_vts)
    else ([], cur_vts)
  | CtrlId.vblank => ([], mode.vts_def)
  | CtrlId.test_pattern => ((mia1321_enable_test_pattern v).2, cur_vts)

/-! ## Sensor identification -/

/-- `mia1321_check_sensor_id`: `readResult` is the outcome of the 16-bit I2C
read of the chip-ID register (`none` when `mia1321_read_reg` fails, in which
case the local `id`, initialised to 0, is left untouched).  Returns the
function's return code and the I2C events issued. -/
def mia1321_check_sensor_id (is_thunderboot : Bool) (readResult : Option Nat) :
    Int × List I2CEvent :=
  if is_thunderboot then (0, [])
  else
    ((if readResult.getD 0 ≠ CHIP_ID then -ENODEV else 0),
     [I2CEvent.read MIA1321_REG_CHIP_ID MIA1321_REG_VALUE_16BIT])

/-! ## Bus configuration and the HDR ioctl -/

/-- `mia1321_g_mbus_config`: the `flags` word reported for the current mode. -/
def mia1321_g_mbus_config (mode : mia1321_mode) : Nat :=
  let val := (1 <<< (MIA1321_LANES - 1)) ||| V4L2_MBUS_CSI2_CHANNEL_0 |||
    V4L2_MBUS_CSI2_CONTINUOUS_CLOCK
  let val := if mode.hdr_mode ≠ NO_HDR then val ||| V4L2_MBUS_CSI2_CHANNEL_1 else val
  let val := if mode.hdr_mode = HDR_X3 then val ||| V4L2_MBUS_CSI2_CHANNEL_2 else val
  val

/-- The `RKMODULE_SET_HDR_CFG` case of `mia1321_ioctl`: scans
`supported_modes` for the first entry matching the current width, height and
the requested `hdr_mode`; on a match it becomes the new `cur_mode`, otherwise
the ioctl fails with `-EINVAL` and `cur_mode` is left unchanged. -/
def mia1321_set_hdr_cfg (cur : mia1321_mode) (hdr : Nat) : Except Int mia1321_mode :=
  match supported_modes.find?
      (fun m => decide (m.width = cur.width ∧ m.height = cur.height ∧ m.hdr_mode = hdr)) with
  | some m => Except.ok m
  | none => Except.error (-EINVAL)

/-! ## Power-on sequence -/

/-- `mia1321_cal_delay`: `DIV_ROUND_UP(cycles, MIA1321_XVCLK_FREQ / 1000 / 1000)`. -/
def mia1321_cal_delay (cycles : Nat) : Nat :=
  (cycles + (MIA1321_XVCLK_FREQ / 1000 / 1000) - 1) / (MIA1321_XVCLK_FREQ / 1000 / 1000)

/-- One observable step of `__mia1321_power_on` / `__mia1321_power_off`. -/
inductive PwrEvent where
  | selectPins
  | clkSetRate (hz : Nat)
  | clkEnable
  | clkDisable
  | resetLow
  | resetHigh
  | regulatorEnable
  | pwdnHigh
  | sleepUs (lo hi : Nat)
deriving DecidableEq

/-- `__mia1321_power_on` as a trace of steps.  `pinsOk` models
`!IS_ERR_OR_NULL(pins_default)`, `resetOk`/`pwdnOk` model `!IS_ERR` of the two
GPIOs, `clkEnableRet` is `clk_prepare_enable`'s result and `regulatorRet` is
`regulator_bulk_enable`'s result (`clk_set_rate` failures only warn and do
not change the flow). -/
def mia1321_power_on (is_thunderboot pinsOk resetOk pwdnOk : Bool)
    (clkEnableRet regulatorRet : Int) : Int × List PwrEvent :=
  let evs := (if pinsOk then [PwrEvent.selectPins] else []) ++
    [PwrEvent.clkSetRate MIA1321_XVCLK_FREQ, PwrEvent.clkEnable]
  if clkEnableRet < 0 then (clkEnableRet, evs)
  else if is_thunderboot then (0, evs)
  else
    let evs := evs ++ (if resetOk then [PwrEvent.resetLow] else []) ++
      [PwrEvent.regulatorEnable]
    if regulatorRet < 0 then (regulatorRet, evs ++ [PwrEvent.clkDisable])
    else
      (0, evs ++ (if resetOk then [PwrEvent.resetHigh] else []) ++
        [PwrEvent.sleepUs 500 1000] ++
        (if pwdnOk then [PwrEvent.pwdnHigh] else []) ++
        (if resetOk then [PwrEvent.sleepUs 6000 8000] else [PwrEvent.sleepUs 12000 16000]) ++
        [PwrEvent.sleepUs (mia1321_cal_delay 8192) (mia1321_cal_delay 8192 * 2)])

/-! ## Stream start -/

/-- `__mia1321_start_stream`: in the non-thunderboot path it pushes
`cur_mode->reg_list` (via `mia1321_write_array`, oracle `wrRet`) and runs
`__v4l2_ctrl_handler_setup`, whose result is abstracted as `ctrlSetupRet`
(its own I2C traffic is not modelled here).  It then writes
`MIA1321_REG_CTRL_MODE = MIA1321_MODE_STREAMING` (result `modeWriteRet`,
which becomes the function's return value) and unconditionally writes `0x01`
to `MIA1321_FLIP_REG` and `0x01` to `MIA1321_MIRROR_REG`. -/
def mia1321_start_stream (is_thunderboot : Bool) (wrRet : Nat → Nat → Int)
    (ctrlSetupRet : Int) (mode : mia1321_mode) (modeWriteRet : Int) :
    Int × List I2CEvent :=
  if is_thunderboot = false then
    let p := mia1321_write_array wrRet mode.reg_list
    if p.1 ≠ 0 then p
    else if ctrlSetupRet ≠ 0 then (ctrlSetupRet, p.2)
    else
      (modeWriteRet,
        p.2 ++ [I2CEvent.write MIA1321_REG_CTRL_MODE MIA1321_REG_VALUE_08BIT MIA1321_MODE_STREAMING,
          I2CEvent.write MIA1321_FLIP_REG MIA1321_REG_VALUE_08BIT 0x01,
          I2CEvent.write MIA1321_MIRROR_REG MIA1321_REG_VALUE_08BIT 0x01])
  else
    (modeWriteRet,
      [I2CEvent.write MIA1321_REG_CTRL_MODE MIA1321_REG_VALUE_08BIT MIA1321_MODE_STREAMING,
       I2CEvent.write MIA1321_FLIP_REG MIA1321_REG_VALUE_08BIT 0x01,
       I2CEvent.write MIA1321_MIRROR_REG MIA1321_REG_VALUE_08BIT 0x01])

/-! ## Helper lemmas -/

lemma mia1321_gain_clamp_eq (gain : Nat) :
    (if MIA1321_GAIN_MAX - 1 < (if gain ≤ MIA1321_GAIN_MIN then MIA1321_GAIN_MIN else gain)
     then MIA1321_GAIN_MAX - 1
     else (if gain ≤ MIA1321_GAIN_MIN then MIA1321_GAIN_MIN else gain)) =
    claim_clamped_gain gain := by
  unfold claim_clamped_gain MIA1321_GAIN_MIN MIA1321_GAIN_MAX MIA1321_AGAIN_MAX
    MIA1321_ONCE_GAIN_STEP
  split_ifs <;> omega

lemma mia1321_set_gain_reg_eq (gain : Nat) :
    mia1321_set_gain_reg gain =
      [I2CEvent.write MIA1321_REG_ANA_GAIN_H MIA1321_REG_VALUE_08BIT
        (mia1321_gain_lookup (claim_clamped_gain gain) mia1321_again).2.2,
       I2CEvent.write MIA1321_REG_ANA_GAIN_M MIA1321_REG_VALUE_08BIT
        (mia1321_gain_lookup (claim_clamped_gain gain) mia1321_again).2.1,
       I2CEvent.write MIA1321_REG_ANA_GAIN_L MIA1321_REG_VALUE_08BIT
        (mia1321_gain_lookup (claim_clamped_gain gain) mia1321_again).1] := by
  simp only [mia1321_set_gain_reg]
  rw [mia1321_gain_clamp_eq]

lemma mia1321_gain_lookup_eq_find (c : Nat) (hc : c < MIA1321_GAIN_MAX - 1)
    (l : List s_again) :
    mia1321_gain_lookup c l =
      match l.find? (fun x => decide (c ≤ x.again)) with
      | some a => (a.reg_0018, a.reg_0019, a.reg_001b)
      | none => (0x00, 0x00, 0x1f) := by
  induction l with
  | nil => rfl
  | cons a rest ih =>
    by_cases h : c ≤ a.again
    · rw [List.find?_cons_of_pos _ (by simpa using h)]
      simp [mia1321_gain_lookup, h]
    · rw [List.find?_cons_of_neg _ (by simpa using h)]
      have h2 : ¬ (MIA1321_GAIN_MAX - 1 ≤ c) := by omega
      simp [mia1321_gain_lookup, h, h2, ih]

lemma claim_clamped_gain_le (gain : Nat) :
    claim_clamped_gain gain ≤ MIA1321_GAIN_MAX - 1 := by
  unfold claim_clamped_gain MIA1321_GAIN_MIN MIA1321_GAIN_MAX MIA1321_AGAIN_MAX
    MIA1321_ONCE_GAIN_STEP
  omega

/-! ## Claim C1 -/

/-- Claim C1: for every exposure control value `v`, under any of the
supported modes (all of which have `hdr_mode = NO_HDR`), the `EXPOSURE`
branch of `mia1321_set_ctrl` issues exactly three 8-bit register writes:
`(v >>> 16) &&& 0xFF` to register 0x00cf, `(v >>> 8) &&& 0xFF` to register
0x00ce, and `v &&& 0xFF` to register 0x00cd, in that order. -/
theorem mia1321_set_ctrl_exposure_spec (mode : mia1321_mode)
    (hm : mode ∈ supported_modes) (cur_vts v : Nat) :
    (mia1321_set_ctrl mode cur_vts CtrlId.exposure v).1 =
      [I2CEvent.write 0x00cf MIA1321_REG_VALUE_08BIT ((v >>> 16) &&& 0xFF),
       I2CEvent.write 0x00ce MIA1321_REG_VALUE_08BIT ((v >>> 8) &&& 0xFF),
       I2CEvent.write 0x00cd MIA1321_REG_VALUE_08BIT (v &&& 0xFF)] := by
  have hall : ∀ m ∈ supported_modes, m.hdr_mode = NO_HDR := by decide
  have hhdr : mode.hdr_mode = NO_HDR := hall mode hm
  simp [mia1321_set_ctrl, hhdr, MIA1321_REG_EXPOSURE_H, MIA1321_REG_EXPOSURE_M,
    MIA1321_REG_EXPOSURE_L, MIA1321_FETCH_EXP_H, MIA1321_FETCH_EXP_M, MIA1321_FETCH_EXP_L]

/-- Witness for C1 at the first supported mode and the default exposure
value 0x01f4. -/
theorem mia1321_set_ctrl_exposure_spec_witness :
    (mia1321_set_ctrl mia1321_mode_1280x1080_60 0x04b0 CtrlId.exposure 0x01f4).1 =
      [I2CEvent.write 0x00cf 1 0x00, I2CEvent.write 0x00ce 1 0x01,
       I2CEvent.write 0x00cd 1 0xf4] :=
  (mia1321_set_ctrl_exposure_spec mia1321_mode_1280x1080_60 (by decide) 0x04b0
    0x01f4).trans (by decide)

/-! ## Claim C2 -/

/-- Counterexample to claim C2: the clamped gain value 26000 lies strictly
between the table's largest `again` value 25600 and 47999, so the lookup
loop falls off the end of `mia1321_again` and the driver writes the local
variables' initial triple `0x1f, 0x00, 0x00`, not the last entry's triple
`0x32, 0x1, 0x70` that the claim asserts. -/
theorem mia1321_set_gain_reg_cex :
    mia1321_set_gain_reg 26000 =
      [I2CEvent.write 0x001b 1 0x1f, I2CEvent.write 0x0019 1 0x00,
       I2CEvent.write 0x0018 1 0x00]
    ∧ mia1321_set_gain_reg 26000 ≠
      [I2CEvent.write 0x001b 1 0x32, I2CEvent.write 0x0019 1 0x01,
       I2CEvent.write 0x0018 1 0x70]
    ∧ claim_clamped_gain 26000 = 26000 ∧ 25600 < 26000 ∧ 26000 < 47999 := by
  decide

/-- Claim C2 (as amended): `mia1321_set_gain_reg` clamps the gain into
`[1500, 47999]` and writes to registers 0x001b, 0x0019, 0x0018: the triple
of the first `mia1321_again` entry whose `again` field is at least the
clamped value when such an entry exists; otherwise (clamped value above the
table's largest `again` value 25600) it writes `0x32, 0x1, 0x70` only when
the clamped value is exactly 47999 (`MIA1321_GAIN_MAX - 1`), and for every
clamped value in 25601..47998 it writes the loop's fall-through defaults
`0x1f, 0x00, 0x00`. -/
theorem mia1321_set_gain_reg_spec (gain : Nat) :
    (∀ a : s_again,
      mia1321_again.find? (fun x => decide (claim_clamped_gain gain ≤ x.again)) = some a →
      mia1321_set_gain_reg gain =
        [I2CEvent.write MIA1321_REG_ANA_GAIN_H MIA1321_REG_VALUE_08BIT a.reg_001b,
         I2CEvent.write MIA1321_REG_ANA_GAIN_M MIA1321_REG_VALUE_08BIT a.reg_0019,
         I2CEvent.write MIA1321_REG_ANA_GAIN_L MIA1321_REG_VALUE_08BIT a.reg_0018])
    ∧ (mia1321_again.find? (fun x => decide (claim_clamped_gain gain ≤ x.again)) = none →
      mia1321_set_gain_reg gain =
        if MIA1321_GAIN_MAX - 1 ≤ claim_clamped_gain gain then
          [I2CEvent.write MIA1321_REG_ANA_GAIN_H MIA1321_REG_VALUE_08BIT 0x32,
           I2CEvent.write MIA1321_REG_ANA_GAIN_M MIA1321_REG_VALUE_08BIT 0x1,
           I2CEvent.write MIA1321_REG_ANA_GAIN_L MIA1321_REG_VALUE_08BIT 0x70]
        else
          [I2CEvent.write MIA1321_REG_ANA_GAIN_H MIA1321_REG_VALUE_08BIT 0x1f,
           I2CEvent.write MIA1321_REG_ANA_GAIN_M MIA1321_REG_VALUE_08BIT 0x00,
           I2CEvent.write MIA1321_REG_ANA_GAIN_L MIA1321_REG_VALUE_08BIT 0x00]) := by
  constructor
  · intro a ha
    have hmem : a ∈ mia1321_again := List.mem_of_find?_eq_some ha
    have hbound : ∀ x ∈ mia1321_again, x.again ≤ 25600 := by decide
    have hle : claim_clamped_gain gain ≤ a.again := by
      have := List.find?_some ha
      simpa using this
    have hc : claim_clamped_gain gain < MIA1321_GAIN_MAX - 1 := by
      have := hbound a hmem
      unfold MIA1321_GAIN_MAX MIA1321_AGAIN_MAX MIA1321_ONCE_GAIN_STEP
      omega
    rw [mia1321_set_gain_reg_eq, mia1321_gain_lookup_eq_find _ hc, ha]
  · intro hnone
    by_cases hmax : MIA1321_GAIN_MAX - 1 ≤ claim_clamped_gain gain
    · have hceq : claim_clamped_gain gain = MIA1321_GAIN_MAX - 1 :=
        le_antisymm (claim_clamped_gain_le gain) hmax
      rw [mia1321_set_gain_reg_eq, hceq, if_pos (le_refl (MIA1321_GAIN_MAX - 1))]
      decide
    · rw [mia1321_set_gain_reg_eq,
        mia1321_gain_lookup_eq_find _ (by omega), hnone, if_neg hmax]

/-- Witness for the amended C2 at gain 1600: the first table entry with
`again ≥ 1600` is the 1750 entry, whose triple `0x13, 0x0, 0x2b` is
written. -/
theorem mia1321_set_gain_reg_spec_witness :
    mia1321_set_gain_reg 1600 =
      [I2CEvent.write 0x001b 1 0x2b, I2CEvent.write 0x0019 1 0x00,
       I2CEvent.write 0x0018 1 0x13] :=
  ((mia1321_set_gain_reg_spec 1600).1 ⟨1750, 0x13, 0x0, 0x2b⟩ (by decide)).trans
    (by decide)

/-! ## Claim C3 -/

/-- Counterexample to claim C3: neither the `VBLANK` branch nor the
`TEST_PATTERN` branch of `mia1321_set_ctrl` issues any sensor register
write (the vblank register writes and the whole body of
`mia1321_enable_test_pattern` are commented out in the source), shown here
at concrete control values 0x120 and 1. -/
theorem mia1321_set_ctrl_no_write_cex :
    (mia1321_set_ctrl mia1321_mode_1280x1080_60 0x04b0 CtrlId.vblank 0x120).1 = []
    ∧ (mia1321_set_ctrl mia1321_mode_1280x1080_60 0x04b0 CtrlId.test_pattern 1).1 = [] := by
  decide

/-- Claim C3 (as amended): for every mode and every control value, the
`VBLANK` branch of `mia1321_set_ctrl` issues no I2C transaction and only
stores `cur_vts = cur_mode->vts_def`, and the `TEST_PATTERN` branch issues
no I2C transaction and leaves `cur_vts` unchanged. -/
theorem mia1321_set_ctrl_vblank_test_pattern_spec (mode : mia1321_mode)
    (cur_vts v : Nat) :
    mia1321_set_ctrl mode cur_vts CtrlId.vblank v = ([], mode.vts_def)
    ∧ mia1321_set_ctrl mode cur_vts CtrlId.test_pattern v = ([], cur_vts) :=
  ⟨rfl, rfl⟩

/-! ## Claim C4 -/

/-- Claim C4: with thunderboot enabled, `mia1321_check_sensor_id` reports
success without any I2C transaction; with thunderboot disabled it performs
one 16-bit read of chip-ID register 0x0011 and returns `-ENODEV` exactly
when the value obtained differs from `CHIP_ID` (0x0400), in particular when
the I2C read fails and the local `id`, initialised to 0, is left at 0. -/
theorem mia1321_check_sensor_id_spec (r : Option Nat) :
    mia1321_check_sensor_id true r = (0, [])
    ∧ ((mia1321_check_sensor_id false r).1 = -ENODEV ↔ r.getD 0 ≠ CHIP_ID)
    ∧ ((mia1321_check_sensor_id false r).1 = 0 ↔ r.getD 0 = CHIP_ID)
    ∧ (mia1321_check_sensor_id false r).2 =
        [I2CEvent.read MIA1321_REG_CHIP_ID MIA1321_REG_VALUE_16BIT]
    ∧ (r = none → (mia1321_check_sensor_id false r).1 = -ENODEV) := by
  refine ⟨rfl, ?_, ?_, rfl, ?_⟩
  · by_cases h : r.getD 0 = CHIP_ID
    · have h0 : (mia1321_check_sensor_id false r).1 = 0 := by
        simp [mia1321_check_sensor_id, h]
      rw [h0]
      constructor
      · intro hh
        exact absurd hh (by decide)
      · intro hh
        exact (hh h).elim
    · have h0 : (mia1321_check_sensor_id false r).1 = -ENODEV := by
        simp [mia1321_check_sensor_id, h]
      rw [h0]
      simp [h]
  · by_cases h : r.getD 0 = CHIP_ID
    · have h0 : (mia1321_check_sensor_id false r).1 = 0 := by
        simp [mia1321_check_sensor_id, h]
      rw [h0]
      simp [h]
    · have h0 : (mia1321_check_sensor_id false r).1 = -ENODEV := by
        simp [mia1321_check_sensor_id, h]
      rw [h0]
      constructor
      · intro hh
        exact absurd hh.symm (by decide)
      · intro hh
        exact (h hh).elim
  · intro hr
    subst hr
    decide

/-- Witness for C4: a failed chip-ID read (value left at 0) makes the
non-thunderboot probe path fail with `-ENODEV`. -/
theorem mia1321_check_sensor_id_spec_witness :
    (mia1321_check_sensor_id false none).1 = -ENODEV :=
  (mia1321_check_sensor_id_spec none).2.2.2.2 rfl

/-! ## Claim C5 -/

lemma mia1321_write_array_append_ok (wrRet : Nat → Nat → Int) (p1 l : List regval)
    (h : ∀ x ∈ p1, x.addr ≠ REG_NULL ∧ (x.addr = REG_DELAY ∨ wrRet x.addr x.val = 0)) :
    mia1321_write_array wrRet (p1 ++ l) =
      ((mia1321_write_array wrRet l).1,
       p1.map regvalEvent ++ (mia1321_write_array wrRet l).2) := by
  induction p1 with
  | nil => simp
  | cons r rest ih =>
    obtain ⟨hnull, hok⟩ := h r (List.mem_cons_self r rest)
    have ih2 := ih (fun x hx => h x (List.mem_cons_of_mem r hx))
    have hdn : REG_DELAY ≠ REG_NULL := by decide
    rcases hok with hdel | hwr
    · simp [mia1321_write_array, hnull, hdel, hdn, ih2, regvalEvent]
    · by_cases hdel : r.addr = REG_DELAY
      · simp [mia1321_write_array, hnull, hdel, hdn, ih2, regvalEvent]
      · simp [mia1321_write_array, hnull, hdel, hwr, ih2, regvalEvent]

/-- Claim C5: `mia1321_write_array` processes the table in index order,
emitting one 8-bit write per entry except that a `REG_DELAY` entry produces
an `mdelay(val)` instead; a prefix `p1` of such entries all of which succeed
is fully emitted, and then (a) the first `REG_NULL` entry stops the walk
with return value 0, while (b) a first failing write (non-delay entry `r`
with `wrRet r ≠ 0`) stops the walk with that write's error code, the failed
write being the last event and no later entry being written or delayed. -/
theorem mia1321_write_array_spec (wrRet : Nat → Nat → Int) (p1 : List regval)
    (r : regval) (p2 : List regval)
    (h : ∀ x ∈ p1, x.addr ≠ REG_NULL ∧ (x.addr = REG_DELAY ∨ wrRet x.addr x.val = 0)) :
    (r.addr = REG_NULL →
      mia1321_write_array wrRet (p1 ++ r :: p2) = (0, p1.map regvalEvent))
    ∧ (r.addr ≠ REG_NULL → r.addr ≠ REG_DELAY → wrRet r.addr r.val ≠ 0 →
      mia1321_write_array wrRet (p1 ++ r :: p2) =
        (wrRet r.addr r.val,
         p1.map regvalEvent ++ [I2CEvent.write r.addr MIA1321_REG_VALUE_08BIT r.val])) := by
  constructor
  · intro hnull
    rw [mia1321_write_array_append_ok wrRet p1 (r :: p2) h]
    simp [mia1321_write_array, hnull]
  · intro hnull hdel hwr
    rw [mia1321_write_array_append_ok wrRet p1 (r :: p2) h]
    simp [mia1321_write_array, hnull, hdel, hwr]

/-- Witness for C5 at a concrete table and oracle: the table
`[{0x0010, 5}, {REG_DELAY, 3}, {REG_NULL, 0}, {0x0030, 7}]` under an
all-success oracle emits the write and the delay and stops at `REG_NULL`
with return value 0. -/
theorem mia1321_write_array_spec_witness :
    mia1321_write_array (fun _ _ => 0)
        [⟨0x0010, 5⟩, ⟨REG_DELAY, 3⟩, ⟨REG_NULL, 0⟩, ⟨0x0030, 7⟩] =
      (0, [I2CEvent.write 0x0010 1 5, I2CEvent.delay 3]) :=
  ((mia1321_write_array_spec (fun _ _ => 0) [⟨0x0010, 5⟩, ⟨REG_DELAY, 3⟩]
      ⟨REG_NULL, 0⟩ [⟨0x0030, 7⟩] (by decide)).1 (by decide)).trans (by decide)

/-! ## Claim C6 -/

lemma kabs_toS32_usub32 (a b : Nat) (ha : a < 2 ^ 31) (hb : b < 2 ^ 31) :
    kabs (toS32 (usub32 a b)) = (((a : Int) - (b : Int)).natAbs : Int) := by
  have h31 : (2 : Nat) ^ 31 = 2147483648 := by norm_num
  have h32 : (2 : Nat) ^ 32 = 4294967296 := by norm_num
  have hi31 : (2 : Int) ^ 31 = 2147483648 := by norm_num
  have hi32 : (2 : Int) ^ 32 = 4294967296 := by norm_num
  unfold kabs toS32 usub32 wrapS32
  rw [h31, h32, hi31, hi32] at *
  split_ifs <;> omega

lemma mia1321_dist_m60_ne_neg_one (f : framefmt) (hw : f.width < 2 ^ 31)
    (hh : f.height < 2 ^ 31) :
    mia1321_get_reso_dist mia1321_mode_1280x1080_60 f ≠ -1 := by
  show wrapS32 (kabs (toS32 (usub32 1280 f.width)) + kabs (toS32 (usub32 1080 f.height))) ≠ -1
  rw [kabs_toS32_usub32 1280 f.width (by norm_num) hw,
    kabs_toS32_usub32 1080 f.height (by norm_num) hh]
  have hi31 : (2 : Int) ^ 31 = 2147483648 := by norm_num
  have hi32 : (2 : Int) ^ 32 = 4294967296 := by norm_num
  unfold wrapS32
  rw [hi31, hi32]
  have h31 : (2 : Nat) ^ 31 = 2147483648 := by norm_num
  rw [h31] at hw hh
  omega

lemma mia1321_find_best_fit_of_dist (f : framefmt)
    (hne : mia1321_get_reso_dist mia1321_mode_1280x1080_60 f ≠ -1) :
    mia1321_find_best_fit f = mia1321_mode_1280x1080_60 := by
  have e1 : mia1321_get_reso_dist mia1321_mode_1280x1080_120 f =
      mia1321_get_reso_dist mia1321_mode_1280x1080_60 f := rfl
  have e2 : mia1321_get_reso_dist mia1321_mode_1280x1080_10 f =
      mia1321_get_reso_dist mia1321_mode_1280x1080_60 f := rfl
  have c2 : ¬ (mia1321_get_reso_dist mia1321_mode_1280x1080_60 f = -1 ∨
      mia1321_get_reso_dist mia1321_mode_1280x1080_60 f <
        mia1321_get_reso_dist mia1321_mode_1280x1080_60 f) := by
    rintro (hcontra | hcontra)
    · exact hne hcontra
    · exact lt_irrefl _ hcontra
  have hgo : mia1321_find_best_fit_go f supported_modes 0 (-1) 0 = 0 := by
    unfold supported_modes
    simp only [mia1321_find_best_fit_go, e1, e2]
    simp [c2, hne]
  unfold mia1321_find_best_fit
  rw [hgo]
  rfl

/-- Counterexample to claim C6: at the request `width = 2147484928`,
`height = 2147484727` (legal `u32` values), all three supported modes tie in
Manhattan distance (they all are 1280x1080), so the claim requires the
lowest-index mode (index 0, 10-bit bus format 0x300a); but the driver's
wrapping 32-bit distance computation yields the sentinel value -1 for every
mode, so the `cur_best_fit_dist == -1` test re-fires at every index and
`mia1321_find_best_fit` returns index 2, whose 12-bit bus format 0x3011 is
written back by `mia1321_set_fmt`. -/
theorem mia1321_set_fmt_cex :
    manhattan mia1321_mode_1280x1080_60 ⟨2147484928, 2147484727, 0⟩ =
      manhattan mia1321_mode_1280x1080_120 ⟨2147484928, 2147484727, 0⟩
    ∧ manhattan mia1321_mode_1280x1080_60 ⟨2147484928, 2147484727, 0⟩ =
      manhattan mia1321_mode_1280x1080_10 ⟨2147484928, 2147484727, 0⟩
    ∧ mia1321_get_reso_dist mia1321_mode_1280x1080_60 ⟨2147484928, 2147484727, 0⟩ = -1
    ∧ mia1321_find_best_fit ⟨2147484928, 2147484727, 0⟩ = mia1321_mode_1280x1080_10
    ∧ (mia1321_set_fmt ⟨2147484928, 2147484727, 0⟩ false).1.code = MEDIA_BUS_FMT_SGRBG12_1X12
    ∧ MEDIA_BUS_FMT_SGRBG12_1X12 ≠ MEDIA_BUS_FMT_SGRBG10_1X10
    ∧ mia1321_mode_1280x1080_60.bus_fmt = MEDIA_BUS_FMT_SGRBG10_1X10 := by
  decide

/-- Claim C6 (as amended): for every requested format whose width and height
are below `2 ^ 31` (so that the driver's wrapping 32-bit distance cannot hit
the loop's `-1` sentinel), `mia1321_set_fmt` returns 0 and overwrites the
request's width, height and media-bus code with those of
`supported_modes[0]` — which is the Manhattan-distance-minimising mode of
lowest index, all three modes being 1280x1080 and therefore tied — and for
an ACTIVE request makes it the current mode and updates the `hblank` range
to `hts_def - width = 1384` (fixed) and the `vblank` range to
`[vts_def - height, MIA1321_VTS_MAX - height] = [120, 64455]` with default
120; for requests at or above `2 ^ 31` the sentinel can re-fire and a
higher-index tied mode can be selected instead (see the counterexample). -/
theorem mia1321_set_fmt_spec (w h c : Nat) (isTry : Bool)
    (hw : w < 2 ^ 31) (hh : h < 2 ^ 31) :
    mia1321_set_fmt ⟨w, h, c⟩ isTry =
      (⟨1280, 1080, MEDIA_BUS_FMT_SGRBG10_1X10⟩,
       if isTry then none
       else some (mia1321_mode_1280x1080_60, ⟨1384, 1384, 1, 1384⟩, ⟨120, 64455, 1, 120⟩))
    ∧ manhattan mia1321_mode_1280x1080_60 ⟨w, h, c⟩ =
      manhattan mia1321_mode_1280x1080_120 ⟨w, h, c⟩
    ∧ manhattan mia1321_mode_1280x1080_60 ⟨w, h, c⟩ =
      manhattan mia1321_mode_1280x1080_10 ⟨w, h, c⟩ := by
  have hne := mia1321_dist_m60_ne_neg_one ⟨w, h, c⟩ hw hh
  have hbf := mia1321_find_best_fit_of_dist ⟨w, h, c⟩ hne
  refine ⟨?_, rfl, rfl⟩
  cases isTry
  · simp only [mia1321_set_fmt, hbf]
    rfl
  · simp only [mia1321_set_fmt, hbf]
    rfl

/-- Witness for the amended C6: a 640x480 TRY request and a 1920x1080 ACTIVE
request are both snapped to mode 0. -/
theorem mia1321_set_fmt_spec_witness :
    (mia1321_set_fmt ⟨640, 480, 0⟩ true).1 = ⟨1280, 1080, MEDIA_BUS_FMT_SGRBG10_1X10⟩
    ∧ mia1321_set_fmt ⟨1920, 1080, 0⟩ false =
      (⟨1280, 1080, MEDIA_BUS_FMT_SGRBG10_1X10⟩,
       some (mia1321_mode_1280x1080_60, ⟨1384, 1384, 1, 1384⟩, ⟨120, 64455, 1, 120⟩)) :=
  ⟨by rw [(mia1321_set_fmt_spec 640 480 0 true (by norm_num) (by norm_num)).1],
   (mia1321_set_fmt_spec 1920 1080 0 false (by norm_num) (by norm_num)).1⟩

/-! ## Claim C7 -/

/-- Claim C7: `mia1321_enum_frame_sizes` fails with `-EINVAL` exactly when
the index is at least 3 or the requested media-bus code differs from
`supported_modes[0].bus_fmt` (the 10-bit format); on success it reports the
indexed mode's fixed width and height as both minimum and maximum, and in
particular the 12-bit format of the third mode is rejected. -/
theorem mia1321_enum_frame_sizes_spec (index code : Nat) :
    (mia1321_enum_frame_sizes index code = Except.error (-EINVAL) ↔
      3 ≤ index ∨ code ≠ MEDIA_BUS_FMT_SGRBG10_1X10)
    ∧ (index < 3 → code = MEDIA_BUS_FMT_SGRBG10_1X10 →
      mia1321_enum_frame_sizes index code =
        Except.ok ((supported_modes.getD index mia1321_mode_1280x1080_60).width,
          (supported_modes.getD index mia1321_mode_1280x1080_60).width,
          (supported_modes.getD index mia1321_mode_1280x1080_60).height,
          (supported_modes.getD index mia1321_mode_1280x1080_60).height))
    ∧ mia1321_enum_frame_sizes 2 MEDIA_BUS_FMT_SGRBG12_1X12 = Except.error (-EINVAL) := by
  have hlen : supported_modes.length = 3 := rfl
  have hfmt0 : (supported_modes.getD 0 mia1321_mode_1280x1080_60).bus_fmt =
      MEDIA_BUS_FMT_SGRBG10_1X10 := rfl
  refine ⟨?_, ?_, rfl⟩
  · by_cases hidx : 3 ≤ index
    · have hge : supported_modes.length ≤ index := by omega
      have hres : mia1321_enum_frame_sizes index code = Except.error (-EINVAL) := by
        unfold mia1321_enum_frame_sizes
        rw [if_pos hge]
      rw [hres]
      simp [hidx]
    · have hlt : ¬ (supported_modes.length ≤ index) := by omega
      by_cases hcode : code = MEDIA_BUS_FMT_SGRBG10_1X10
      · have hc2 : ¬ (code ≠ (supported_modes.getD 0 mia1321_mode_1280x1080_60).bus_fmt) := by
          rw [hfmt0]
          exact fun hk => hk hcode
        have hres : mia1321_enum_frame_sizes index code =
            Except.ok ((supported_modes.getD index mia1321_mode_1280x1080_60).width,
              (supported_modes.getD index mia1321_mode_1280x1080_60).width,
              (supported_modes.getD index mia1321_mode_1280x1080_60).height,
              (supported_modes.getD index mia1321_mode_1280x1080_60).height) := by
          unfold mia1321_enum_frame_sizes
          rw [if_neg hlt, if_neg hc2]
        rw [hres]
        constructor
        · intro hcontra
          exact Except.noConfusion hcontra
        · rintro (hcontra | hcontra)
          · exact absurd hcontra hidx
          · exact absurd hcode hcontra
      · have hc2 : code ≠ (supported_modes.getD 0 mia1321_mode_1280x1080_60).bus_fmt := by
          rw [hfmt0]
          exact hcode
        have hres : mia1321_enum_frame_sizes index code = Except.error (-EINVAL) := by
          unfold mia1321_enum_frame_sizes
          rw [if_neg hlt, if_pos hc2]
        rw [hres]
        simp [hcode]
  · intro hidx hcode
    have hlt : ¬ (supported_modes.length ≤ index) := by omega
    have hc2 : ¬ (code ≠ (supported_modes.getD 0 mia1321_mode_1280x1080_60).bus_fmt) := by
      rw [hfmt0]
      exact fun hk => hk hcode
    unfold mia1321_enum_frame_sizes
    rw [if_neg hlt, if_neg hc2]

/-- Witness for C7: index 1 with the 10-bit code succeeds reporting
1280x1080 as both minimum and maximum; index 3 fails with `-EINVAL`. -/
theorem mia1321_enum_frame_sizes_spec_witness :
    mia1321_enum_frame_sizes 1 MEDIA_BUS_FMT_SGRBG10_1X10 =
      Except.ok (1280, 1280, 1080, 1080)
    ∧ mia1321_enum_frame_sizes 3 MEDIA_BUS_FMT_SGRBG10_1X10 = Except.error (-EINVAL) :=
  ⟨((mia1321_enum_frame_sizes_spec 1 MEDIA_BUS_FMT_SGRBG10_1X10).2.1 (by norm_num)
      rfl).trans rfl,
   (mia1321_enum_frame_sizes_spec 3 MEDIA_BUS_FMT_SGRBG10_1X10).1.mpr
     (Or.inl (by norm_num))⟩

/-! ## Claim C8 -/

/-- Claim C8: every entry of `supported_modes` has `hdr_mode = NO_HDR`;
consequently `mia1321_g_mbus_config` always reports exactly 2 data lanes,
CSI-2 channel 0 and a continuous clock (never the channel-1 or channel-2
flags), and the `RKMODULE_SET_HDR_CFG` ioctl fails with `-EINVAL` for every
requested `hdr_mode` other than `NO_HDR` (returning the error without
producing a new current mode, so `cur_mode` is unchanged). -/
theorem mia1321_hdr_spec (mode : mia1321_mode) (hm : mode ∈ supported_modes)
    (hdr : Nat) (hne : hdr ≠ NO_HDR) :
    mode.hdr_mode = NO_HDR
    ∧ mia1321_g_mbus_config mode =
      ((1 <<< (MIA1321_LANES - 1)) ||| V4L2_MBUS_CSI2_CHANNEL_0 |||
        V4L2_MBUS_CSI2_CONTINUOUS_CLOCK)
    ∧ mia1321_g_mbus_config mode &&& V4L2_MBUS_CSI2_CHANNEL_1 = 0
    ∧ mia1321_g_mbus_config mode &&& V4L2_MBUS_CSI2_CHANNEL_2 = 0
    ∧ mia1321_set_hdr_cfg mode hdr = Except.error (-EINVAL) := by
  have hall : ∀ m ∈ supported_modes, m.hdr_mode = NO_HDR := by decide
  have hmem : mode = mia1321_mode_1280x1080_60 ∨ mode = mia1321_mode_1280x1080_120 ∨
      mode = mia1321_mode_1280x1080_10 := by
    simpa [supported_modes] using hm
  have hfind : supported_modes.find?
      (fun m => decide (m.width = mode.width ∧ m.height = mode.height ∧
        m.hdr_mode = hdr)) = none := by
    rw [List.find?_eq_none]
    intro x hx
    simp only [decide_eq_true_eq]
    rintro ⟨-, -, hx3⟩
    have hx0 : x.hdr_mode = NO_HDR := hall x hx
    rw [hx3] at hx0
    exact hne hx0
  refine ⟨hall mode hm, ?_, ?_, ?_, ?_⟩
  · rcases hmem with rfl | rfl | rfl <;> decide
  · rcases hmem with rfl | rfl | rfl <;> decide
  · rcases hmem with rfl | rfl | rfl <;> decide
  · unfold mia1321_set_hdr_cfg
    rw [hfind]

/-- Witness for C8 at the first supported mode and the HDR_X2 request. -/
theorem mia1321_hdr_spec_witness :
    mia1321_g_mbus_config mia1321_mode_1280x1080_60 = 0x112
    ∧ mia1321_set_hdr_cfg mia1321_mode_1280x1080_60 HDR_X2 = Except.error (-EINVAL) :=
  ⟨((mia1321_hdr_spec mia1321_mode_1280x1080_60 (by decide) HDR_X2 (by decide)).2.1).trans
      (by decide),
   (mia1321_hdr_spec mia1321_mode_1280x1080_60 (by decide) HDR_X2 (by decide)).2.2.2.2⟩

/-! ## Claim C9 -/

/-- Claim C9: in the non-thunderboot path with both GPIOs and the default
pinctrl state available, a successful `__mia1321_power_on` performs, in
order: select default pins, set and enable the xvclk clock, drive reset low,
enable the regulators, drive reset high, raise pwdn, and finally sleep
`mia1321_cal_delay(8192) = 316` microseconds, which covers the duration of
8192 xvclk cycles (`316 us x 26 cycles/us >= 8192 cycles`), before
returning; and if `regulator_bulk_enable` fails with `r < 0` the clock is
disabled again and `r` is returned, with no reset-high, pwdn or delay
steps. -/
theorem mia1321_power_on_spec (r : Int) (hr : r < 0) :
    mia1321_power_on false true true true 0 0 =
      (0, [PwrEvent.selectPins, PwrEvent.clkSetRate MIA1321_XVCLK_FREQ, PwrEvent.clkEnable,
        PwrEvent.resetLow, PwrEvent.regulatorEnable, PwrEvent.resetHigh,
        PwrEvent.sleepUs 500 1000, PwrEvent.pwdnHigh, PwrEvent.sleepUs 6000 8000,
        PwrEvent.sleepUs 316 632])
    ∧ mia1321_cal_delay 8192 = 316
    ∧ 8192 ≤ mia1321_cal_delay 8192 * (MIA1321_XVCLK_FREQ / 1000 / 1000)
    ∧ mia1321_power_on false true true true 0 r =
      (r, [PwrEvent.selectPins, PwrEvent.clkSetRate MIA1321_XVCLK_FREQ, PwrEvent.clkEnable,
        PwrEvent.resetLow, PwrEvent.regulatorEnable, PwrEvent.clkDisable]) := by
  refine ⟨by decide, by decide, by decide, ?_⟩
  simp [mia1321_power_on, hr]

/-- Witness for C9 at the concrete regulator failure `-5`. -/
theorem mia1321_power_on_spec_witness :
    mia1321_power_on false true true true 0 (-5) =
      ((-5 : Int), [PwrEvent.selectPins, PwrEvent.clkSetRate 26000000, PwrEvent.clkEnable,
        PwrEvent.resetLow, PwrEvent.regulatorEnable, PwrEvent.clkDisable]) :=
  (mia1321_power_on_spec (-5) (by norm_num)).2.2.2

/-! ## Claim C10 -/

/-- Claim C10: every successful run of `__mia1321_start_stream` (return
value 0) emits at least three I2C events and its last three events are, in
order, the write of `MIA1321_MODE_STREAMING` to `MIA1321_REG_CTRL_MODE`
followed by the unconditional writes of 1 to the flip register 0x0099 and 1
to the mirror register 0x009a — irrespective of the HFLIP/VFLIP control
values, so streaming always begins with both mirror and flip enabled. -/
theorem mia1321_start_stream_spec (tb : Bool) (wrRet : Nat → Nat → Int)
    (ctrlSetupRet : Int) (mode : mia1321_mode) (modeWriteRet : Int)
    (hok : (mia1321_start_stream tb wrRet ctrlSetupRet mode modeWriteRet).1 = 0) :
    3 ≤ (mia1321_start_stream tb wrRet ctrlSetupRet mode modeWriteRet).2.length
    ∧ (mia1321_start_stream tb wrRet ctrlSetupRet mode modeWriteRet).2.drop
        ((mia1321_start_stream tb wrRet ctrlSetupRet mode modeWriteRet).2.length - 3) =
      [I2CEvent.write MIA1321_REG_CTRL_MODE MIA1321_REG_VALUE_08BIT MIA1321_MODE_STREAMING,
       I2CEvent.write MIA1321_FLIP_REG MIA1321_REG_VALUE_08BIT 0x01,
       I2CEvent.write MIA1321_MIRROR_REG MIA1321_REG_VALUE_08BIT 0x01] := by
  cases tb
  · rcases hp : mia1321_write_array wrRet mode.reg_list with ⟨pret, pevs⟩
    by_cases h1 : pret = 0
    · by_cases h2 : ctrlSetupRet = 0
      · have hres : mia1321_start_stream false wrRet ctrlSetupRet mode modeWriteRet =
            (modeWriteRet, pevs ++
              [I2CEvent.write MIA1321_REG_CTRL_MODE MIA1321_REG_VALUE_08BIT
                MIA1321_MODE_STREAMING,
               I2CEvent.write MIA1321_FLIP_REG MIA1321_REG_VALUE_08BIT 0x01,
               I2CEvent.write MIA1321_MIRROR_REG MIA1321_REG_VALUE_08BIT 0x01]) := by
          simp [mia1321_start_stream, hp, h1, h2]
        rw [hres]
        constructor
        · simp
        · have hlen : (pevs ++
              [I2CEvent.write MIA1321_REG_CTRL_MODE MIA1321_REG_VALUE_08BIT
                MIA1321_MODE_STREAMING,
               I2CEvent.write MIA1321_FLIP_REG MIA1321_REG_VALUE_08BIT 0x01,
               I2CEvent.write MIA1321_MIRROR_REG MIA1321_REG_VALUE_08BIT 0x01]).length - 3 =
              pevs.length := by
            simp
          rw [hlen, List.drop_left]
      · exfalso
        have hfst : (mia1321_start_stream false wrRet ctrlSetupRet mode modeWriteRet).1 =
            ctrlSetupRet := by
          simp [mia1321_start_stream, hp, h1, h2]
        exact h2 (hfst.symm.trans hok)
    · exfalso
      have hfst : (mia1321_start_stream false wrRet ctrlSetupRet mode modeWriteRet).1 =
          pret := by
        simp [mia1321_start_stream, hp, h1]
      exact h1 (hfst.symm.trans hok)
  · exact ⟨Nat.le.refl, rfl⟩

/-- Witness for C10 in the thunderboot path with a successful streaming-mode
write. -/
theorem mia1321_start_stream_spec_witness :
    3 ≤ (mia1321_start_stream true (fun _ _ => 0) 0 mia1321_mode_1280x1080_60 0).2.length
    ∧ (mia1321_start_stream true (fun _ _ => 0) 0 mia1321_mode_1280x1080_60 0).2.drop
        ((mia1321_start_stream true (fun _ _ => 0) 0 mia1321_mode_1280x1080_60 0).2.length
          - 3) =
      [I2CEvent.write MIA1321_REG_CTRL_MODE MIA1321_REG_VALUE_08BIT MIA1321_MODE_STREAMING,
       I2CEvent.write MIA1321_FLIP_REG MIA1321_REG_VALUE_08BIT 0x01,
       I2CEvent.write MIA1321_MIRROR_REG MIA1321_REG_VALUE_08BIT 0x01] :=
  mia1321_start_stream_spec true (fun _ _ => 0) 0 mia1321_mode_1280x1080_60 0 rfl
